import Mathlib

/-!
Shallow embedding of the embassy PHY driver core:

* `embassy-phy-driver/src/phy/regs.rs` — register address model (`C22`, `Mmd`, `C45`);
* `embassy-phy-driver/src/lib.rs` — the `StationManagement` /
  `StationManagementAsync` traits with their default Clause 45 composite
  operations `smi_read_mmd` / `smi_write_mmd`;
* `embassy-phy-driver/src/phy/mod.rs` — speed / duplex / link-status types;
* `embassy-stm32/src/eth/generic_phy.rs` — the `GenericPhy` controller
  (`phy_reset` with address discovery, `phy_init`, `poll_link`).

The concrete SMI bus backend is external to the repository.  It is modelled
as a response oracle `Bus`: for each primitive operation the oracle supplies
the `Result` the bus returns, possibly depending on the whole sequence of
primitive operations issued so far.  Every embedded driver function threads
an explicit trace (`List SmiOp`) of the primitive operations it has issued,
exactly the observation the repository's own `MockMdioBus` tests record.
Machine integers (`u8`, `u16`) are embedded as `Nat`; every arithmetic
operation the source performs on them (`&`, `|`, `<<`) is reproduced
literally, and no operation in the code can overflow 16 bits.

The single unbounded loop in the source (the known-address reset wait
`while smi_read(..)? & RESET == RESET {}`) is given an explicit fuel
parameter; exhausting the fuel is reported as the distinguished outcome
`ResetOutcome.spin`, standing for the real loop not having terminated yet.
All other loops in the source are bounded (`for addr in 0..32`,
`for _ in 0..10`) and are embedded by structural recursion on their
remaining iteration count.
-/

/-- A single MDIO clause 22 register address (5 bits), from
`phy/regs.rs` (`pub struct C22(pub u8)`). -/
structure C22 where
  val : Nat
deriving DecidableEq

/-- Basic mode control. -/
def C22.BMCR : C22 := ⟨0x00⟩

/-- Basic mode status. -/
def C22.BMSR : C22 := ⟨0x01⟩

/-- PHY identifier 1. -/
def C22.PHYSID1 : C22 := ⟨0x02⟩

/-- PHY identifier 2. -/
def C22.PHYSID2 : C22 := ⟨0x03⟩

/-- Auto-negotiation advertisement. -/
def C22.ADVERTISE : C22 := ⟨0x04⟩

/-- Auto-negotiation link partner base page ability. -/
def C22.LPA : C22 := ⟨0x05⟩

/-- MMD Register control. -/
def C22.MMD_CONTROL : C22 := ⟨0x0d⟩

/-- MMD Register address data. -/
def C22.MMD_DATA : C22 := ⟨0x0e⟩

/-- A single MDIO clause 45 register device identifier, from
`phy/regs.rs` (`pub struct Mmd(pub u8)`). -/
structure Mmd where
  val : Nat
deriving DecidableEq

/-- Physical Medium Attachment/Dependent. -/
def Mmd.PMAPMD : Mmd := ⟨1⟩

/-- Physical coding sublayer. -/
def Mmd.PCS : Mmd := ⟨3⟩

/-- Auto negotiation. -/
def Mmd.AN : Mmd := ⟨7⟩

/-- A single MDIO clause 45 register device and address, from
`phy/regs.rs` (`pub struct C45 { devad: Mmd, regnum: u16 }`). -/
structure C45 where
  devad : Mmd
  regnum : Nat
deriving DecidableEq

/-- `C45::new` from `phy/regs.rs`. -/
def C45.new (devad : Mmd) (regnum : Nat) : C45 :=
  ⟨devad, regnum⟩

/-- Link Speed (`Speed` in `phy/mod.rs`). -/
inductive Speed where
  | s10
  | s100
  | s1000
  | s2500
  | s5000
  | s10000
deriving DecidableEq

/-- Duplex (`DuplexMode` in `phy/mod.rs`). -/
inductive DuplexMode where
  | Full
  | Half
deriving DecidableEq

/-- Link Status (`LinkStatus` in `phy/mod.rs`; `generic_phy.rs` calls the
same shape `PhyLink`). -/
inductive LinkStatus where
  | Down
  | Up (speed : Speed) (duplex : DuplexMode)
deriving DecidableEq

/-- A primitive SMI operation issued on the bus, exactly what the
repository's `MockMdioBus` tests record (`enum A { Read(u8, C22),
Write(u8, C22, u16) }`). -/
inductive SmiOp where
  | read (phy_addr : Nat) (reg : C22)
  | write (phy_addr : Nat) (reg : C22) (val : Nat)
deriving DecidableEq

/-- The phy address an operation was issued at. -/
def SmiOp.addr : SmiOp → Nat
  | .read a _ => a
  | .write a _ _ => a

/-- The register an operation targets. -/
def SmiOp.regOf : SmiOp → C22
  | .read _ r => r
  | .write _ r _ => r

/-- Whether the operation is a primitive write. -/
def SmiOp.isWrite : SmiOp → Bool
  | .read _ _ => false
  | .write _ _ _ => true

/-- Whether the operation is a primitive read. -/
def SmiOp.isRead : SmiOp → Bool
  | .read _ _ => true
  | .write _ _ _ => false

/-- The external SMI bus backend, modelled as a response oracle: the
`Result` of each primitive operation may depend on the operation's
arguments and on the trace of primitive operations issued before it.
`E` is the backend's opaque error type (`StationManagement::Error`). -/
structure Bus (E : Type) where
  readResp : Nat → C22 → List SmiOp → Except E Nat
  writeResp : Nat → C22 → Nat → List SmiOp → Except E Unit

/-- `StationManagement::smi_read`: issue a primitive read, recording it on
the trace; the value is whatever the backend answers. -/
def smi_read {E : Type} (bus : Bus E) (tr : List SmiOp) (phy_addr : Nat) (reg : C22) :
    List SmiOp × Except E Nat :=
  (tr ++ [SmiOp.read phy_addr reg], bus.readResp phy_addr reg tr)

/-- `StationManagement::smi_write`: issue a primitive write, recording it on
the trace; the acknowledgement is whatever the backend answers. -/
def smi_write {E : Type} (bus : Bus E) (tr : List SmiOp) (phy_addr : Nat) (reg : C22)
    (val : Nat) : List SmiOp × Except E Unit :=
  (tr ++ [SmiOp.write phy_addr reg val], bus.writeResp phy_addr reg val tr)

/-- `Reg13Op::Addr = 0b00 << 14` from `lib.rs`. -/
def Reg13Op.Addr : Nat := 0b00 <<< 14

/-- `Reg13Op::Write = 0b01 << 14` from `lib.rs`. -/
def Reg13Op.Write : Nat := 0b01 <<< 14

/-- `Reg13Op::PostReadIncAddr = 0b10 << 14` from `lib.rs`. -/
def Reg13Op.PostReadIncAddr : Nat := 0b10 <<< 14

/-- `Reg13Op::Read = 0b11 << 14` from `lib.rs`. -/
def Reg13Op.Read : Nat := 0b11 <<< 14

/-- `const DEV_MASK: u8 = 0x1f` from `lib.rs`. -/
def DEV_MASK : Nat := 0x1f

/-- `StationManagement::smi_read_mmd` default implementation from `lib.rs`
lines 36-50: write `Addr|devad` to MMD_CONTROL, write `regnum` to MMD_DATA,
write `Read|devad` to MMD_CONTROL, read MMD_DATA.  Each `?` aborts with the
primitive's error. -/
def smi_read_mmd {E : Type} (bus : Bus E) (tr : List SmiOp) (phy_addr : Nat) (reg : C45) :
    List SmiOp × Except E Nat :=
  let devad := reg.devad.val &&& DEV_MASK
  let p1 := smi_write bus tr phy_addr C22.MMD_CONTROL (Reg13Op.Addr ||| devad)
  match p1.2 with
  | .error e => (p1.1, .error e)
  | .ok _ =>
    let p2 := smi_write bus p1.1 phy_addr C22.MMD_DATA reg.regnum
    match p2.2 with
    | .error e => (p2.1, .error e)
    | .ok _ =>
      let p3 := smi_write bus p2.1 phy_addr C22.MMD_CONTROL (Reg13Op.Read ||| devad)
      match p3.2 with
      | .error e => (p3.1, .error e)
      | .ok _ => smi_read bus p3.1 phy_addr C22.MMD_DATA

/-- `StationManagement::smi_write_mmd` default implementation from `lib.rs`
lines 56-70: write `Addr|devad` to MMD_CONTROL, write `regnum` to MMD_DATA,
write `Write|devad` to MMD_CONTROL, write `reg_val` to MMD_DATA. -/
def smi_write_mmd {E : Type} (bus : Bus E) (tr : List SmiOp) (phy_addr : Nat) (reg : C45)
    (reg_val : Nat) : List SmiOp × Except E Unit :=
  let devad := reg.devad.val &&& DEV_MASK
  let p1 := smi_write bus tr phy_addr C22.MMD_CONTROL (Reg13Op.Addr ||| devad)
  match p1.2 with
  | .error e => (p1.1, .error e)
  | .ok _ =>
    let p2 := smi_write bus p1.1 phy_addr C22.MMD_DATA reg.regnum
    match p2.2 with
    | .error e => (p2.1, .error e)
    | .ok _ =>
      let p3 := smi_write bus p2.1 phy_addr C22.MMD_CONTROL (Reg13Op.Write ||| devad)
      match p3.2 with
      | .error e => (p3.1, .error e)
      | .ok _ => smi_write bus p3.1 phy_addr C22.MMD_DATA reg_val

namespace Async

/-- `StationManagementAsync::smi_read`: the suspending discipline's
primitive read.  The awaited outcome is the backend's response, so the
embedding coincides with the blocking primitive. -/
def smi_read {E : Type} (bus : Bus E) (tr : List SmiOp) (phy_addr : Nat) (reg : C22) :
    List SmiOp × Except E Nat :=
  (tr ++ [SmiOp.read phy_addr reg], bus.readResp phy_addr reg tr)

/-- `StationManagementAsync::smi_write`: the suspending discipline's
primitive write. -/
def smi_write {E : Type} (bus : Bus E) (tr : List SmiOp) (phy_addr : Nat) (reg : C22)
    (val : Nat) : List SmiOp × Except E Unit :=
  (tr ++ [SmiOp.write phy_addr reg val], bus.writeResp phy_addr reg val tr)

/-- `StationManagementAsync::smi_read_mmd` default implementation from
`lib.rs` lines 87-103: the same four awaited steps as the blocking
discipline. -/
def smi_read_mmd {E : Type} (bus : Bus E) (tr : List SmiOp) (phy_addr : Nat) (reg : C45) :
    List SmiOp × Except E Nat :=
  let devad := reg.devad.val &&& DEV_MASK
  let p1 := Async.smi_write bus tr phy_addr C22.MMD_CONTROL (Reg13Op.Addr ||| devad)
  match p1.2 with
  | .error e => (p1.1, .error e)
  | .ok _ =>
    let p2 := Async.smi_write bus p1.1 phy_addr C22.MMD_DATA reg.regnum
    match p2.2 with
    | .error e => (p2.1, .error e)
    | .ok _ =>
      let p3 := Async.smi_write bus p2.1 phy_addr C22.MMD_CONTROL (Reg13Op.Read ||| devad)
      match p3.2 with
      | .error e => (p3.1, .error e)
      | .ok _ => Async.smi_read bus p3.1 phy_addr C22.MMD_DATA

/-- `StationManagementAsync::smi_write_mmd` default implementation from
`lib.rs` lines 109-125. -/
def smi_write_mmd {E : Type} (bus : Bus E) (tr : List SmiOp) (phy_addr : Nat) (reg : C45)
    (reg_val : Nat) : List SmiOp × Except E Unit :=
  let devad := reg.devad.val &&& DEV_MASK
  let p1 := Async.smi_write bus tr phy_addr C22.MMD_CONTROL (Reg13Op.Addr ||| devad)
  match p1.2 with
  | .error e => (p1.1, .error e)
  | .ok _ =>
    let p2 := Async.smi_write bus p1.1 phy_addr C22.MMD_DATA reg.regnum
    match p2.2 with
    | .error e => (p2.1, .error e)
    | .ok _ =>
      let p3 := Async.smi_write bus p2.1 phy_addr C22.MMD_CONTROL (Reg13Op.Write ||| devad)
      match p3.2 with
      | .error e => (p3.1, .error e)
      | .ok _ => Async.smi_write bus p3.1 phy_addr C22.MMD_DATA reg_val

end Async

/-- `PHY_REG_WUCSR` from `generic_phy.rs`. -/
def PHY_REG_WUCSR : Nat := 0x8010

/-- `PHY_REG_BCR_ANRST` from `generic_phy.rs`. -/
def PHY_REG_BCR_ANRST : Nat := 1 <<< 9

/-- `PHY_REG_BCR_AN` from `generic_phy.rs`. -/
def PHY_REG_BCR_AN : Nat := 1 <<< 12

/-- `PHY_REG_BCR_100M` from `generic_phy.rs`. -/
def PHY_REG_BCR_100M : Nat := 1 <<< 13

/-- `PHY_REG_BCR_RESET` from `generic_phy.rs`. -/
def PHY_REG_BCR_RESET : Nat := 1 <<< 15

/-- `PHY_REG_BSR_UP` from `generic_phy.rs`. -/
def PHY_REG_BSR_UP : Nat := 1 <<< 2

/-- `PHY_REG_BSR_ANDONE` from `generic_phy.rs`. -/
def PHY_REG_BSR_ANDONE : Nat := 1 <<< 5

/-- The `GenericPhy` driver state from `generic_phy.rs`: the stored phy
address (0xFF is the in-band "not yet discovered" sentinel) and the poll
interval (a duration, embedded in milliseconds). -/
structure GenericPhy where
  phy_addr : Nat
  poll_interval : Nat
deriving DecidableEq

/-- `GenericPhy::new`: asserts `phy_addr < 32` (`none` models the panic)
and stores the given address; default poll interval 500 ms. -/
def GenericPhy.new (phy_addr : Nat) : Option GenericPhy :=
  if phy_addr < 32 then some ⟨phy_addr, 500⟩ else none

/-- `GenericPhy::new_auto`: stores the sentinel address 0xFF; default poll
interval 500 ms. -/
def GenericPhy.new_auto : GenericPhy :=
  ⟨0xFF, 500⟩

/-- `GenericPhy::set_poll_interval`. -/
def GenericPhy.set_poll_interval (phy : GenericPhy) (poll_interval : Nat) : GenericPhy :=
  { phy with poll_interval := poll_interval }

/-- Outcome of the bounded inner poll loop of discovery
(`for _ in 0..10 { if smi_read(addr, BMCR)? & RESET != RESET { .. } }`). -/
inductive PollOutcome (E : Type) where
  | found
  | timeout
  | err (e : E)
deriving DecidableEq

/-- The inner loop of `phy_reset` discovery (`generic_phy.rs` lines
95-103): read BMCR at `addr` up to `n` times (the source runs it with
`n = 10`); stop with `found` at the first read whose RESET bit is clear,
abort with `err` on a bus error, `timeout` after `n` reads with the bit
still set.  The inter-attempt delay has no effect on the bus trace. -/
def phy_reset_poll {E : Type} (bus : Bus E) : List SmiOp → Nat → Nat →
    List SmiOp × PollOutcome E
  | tr, _, 0 => (tr, PollOutcome.timeout)
  | tr, addr, n + 1 =>
    let p := smi_read bus tr addr C22.BMCR
    match p.2 with
    | .error e => (p.1, PollOutcome.err e)
    | .ok v =>
      if v &&& PHY_REG_BCR_RESET ≠ PHY_REG_BCR_RESET then (p.1, PollOutcome.found)
      else phy_reset_poll bus p.1 addr n

/-- Outcome of the discovery loop over candidate addresses. -/
inductive DiscOutcome (E : Type) where
  | found (addr : Nat)
  | nodev
  | err (e : E)
deriving DecidableEq

/-- The outer loop of `phy_reset` discovery (`generic_phy.rs` lines
93-105): for each candidate address from `addr` while `n` candidates
remain (the source runs it with `addr = 0`, `n = 32`), write RESET to
BMCR, then poll up to 10 times; adopt the first responding address;
`nodev` models the `panic!("PHY did not respond")` after all candidates
are exhausted. -/
def phy_reset_discover {E : Type} (bus : Bus E) : List SmiOp → Nat → Nat →
    List SmiOp × DiscOutcome E
  | tr, _, 0 => (tr, DiscOutcome.nodev)
  | tr, addr, n + 1 =>
    let pw := smi_write bus tr addr C22.BMCR PHY_REG_BCR_RESET
    match pw.2 with
    | .error e => (pw.1, DiscOutcome.err e)
    | .ok _ =>
      match phy_reset_poll bus pw.1 addr 10 with
      | (tr2, PollOutcome.found) => (tr2, DiscOutcome.found addr)
      | (tr2, PollOutcome.err e) => (tr2, DiscOutcome.err e)
      | (tr2, PollOutcome.timeout) => phy_reset_discover bus tr2 (addr + 1) n

/-- Outcome of the known-address reset wait loop. -/
inductive WaitOutcome (E : Type) where
  | done
  | spin
  | err (e : E)
deriving DecidableEq

/-- The known-address wait of `phy_reset` (`generic_phy.rs` line 110):
`while smi_read(phy_addr, BMCR)? & RESET == RESET {}`.  The source loop is
unbounded; `fuel` bounds the embedding and `spin` reports exhaustion. -/
def phy_reset_wait {E : Type} (bus : Bus E) (addr : Nat) : List SmiOp → Nat →
    List SmiOp × WaitOutcome E
  | tr, 0 => (tr, WaitOutcome.spin)
  | tr, n + 1 =>
    let p := smi_read bus tr addr C22.BMCR
    match p.2 with
    | .error e => (p.1, WaitOutcome.err e)
    | .ok v =>
      if v &&& PHY_REG_BCR_RESET = PHY_REG_BCR_RESET then phy_reset_wait bus addr p.1 n
      else (p.1, WaitOutcome.done)

/-- Overall outcome of `phy_reset`: `ok` = `Ok(())`, `err` = `Err(e)`,
`nodev` = the `panic!("PHY did not respond")`, `spin` = the unbounded
known-address wait still running when the fuel ran out. -/
inductive ResetOutcome (E : Type) where
  | ok
  | err (e : E)
  | nodev
  | spin
deriving DecidableEq

/-- `GenericPhy::phy_reset` (`generic_phy.rs` lines 90-113).  With the
sentinel address it runs discovery over candidates 0..32 and stores the
first responding address; otherwise it writes RESET to BMCR at the stored
address and busy-polls (fuelled here) until the bit reads clear. -/
def phy_reset {E : Type} (bus : Bus E) (phy : GenericPhy) (fuel : Nat) (tr : List SmiOp) :
    GenericPhy × List SmiOp × ResetOutcome E :=
  if phy.phy_addr = 0xFF then
    match phy_reset_discover bus tr 0 32 with
    | (tr2, DiscOutcome.found a) => ({ phy with phy_addr := a }, tr2, ResetOutcome.ok)
    | (tr2, DiscOutcome.nodev) => (phy, tr2, ResetOutcome.nodev)
    | (tr2, DiscOutcome.err e) => (phy, tr2, ResetOutcome.err e)
  else
    let pw := smi_write bus tr phy.phy_addr C22.BMCR PHY_REG_BCR_RESET
    match pw.2 with
    | .error e => (phy, pw.1, ResetOutcome.err e)
    | .ok _ =>
      match phy_reset_wait bus phy.phy_addr pw.1 fuel with
      | (tr2, WaitOutcome.done) => (phy, tr2, ResetOutcome.ok)
      | (tr2, WaitOutcome.spin) => (phy, tr2, ResetOutcome.spin)
      | (tr2, WaitOutcome.err e) => (phy, tr2, ResetOutcome.err e)

/-- `GenericPhy::phy_init` (`generic_phy.rs` lines 115-125): composite
Clause 45 write of 0 to the WUCSR register in the PCS device namespace,
then primitive write of `AN | ANRST | 100M` to BMCR.  `self` is never
mutated; it is returned unchanged. -/
def phy_init {E : Type} (bus : Bus E) (phy : GenericPhy) (tr : List SmiOp) :
    GenericPhy × List SmiOp × Except E Unit :=
  let p1 := smi_write_mmd bus tr phy.phy_addr (C45.new Mmd.PCS PHY_REG_WUCSR) 0
  match p1.2 with
  | .error e => (phy, p1.1, .error e)
  | .ok _ =>
    let p2 := smi_write bus p1.1 phy.phy_addr C22.BMCR
      (PHY_REG_BCR_AN ||| PHY_REG_BCR_ANRST ||| PHY_REG_BCR_100M)
    (phy, p2.1, p2.2)

/-- `GenericPhy::poll_link` (`generic_phy.rs` lines 127-171): read BMSR;
Down unless auto-negotiation is complete and the link is up; otherwise
read ADVERTISE and LPA, AND them, and decode speed/duplex by descending
priority 100-full, 100-half, 10-full, else 10-half.  The timer poll /
waker at the head of the source function issues no bus operation.  `self`
is never mutated; it is returned unchanged. -/
def poll_link {E : Type} (bus : Bus E) (phy : GenericPhy) (tr : List SmiOp) :
    GenericPhy × List SmiOp × Except E LinkStatus :=
  let p1 := smi_read bus tr phy.phy_addr C22.BMSR
  match p1.2 with
  | .error e => (phy, p1.1, .error e)
  | .ok bmsr =>
    if bmsr &&& PHY_REG_BSR_ANDONE = 0 then (phy, p1.1, .ok LinkStatus.Down)
    else if bmsr &&& PHY_REG_BSR_UP = 0 then (phy, p1.1, .ok LinkStatus.Down)
    else
      let p2 := smi_read bus p1.1 phy.phy_addr C22.ADVERTISE
      match p2.2 with
      | .error e => (phy, p2.1, .error e)
      | .ok advertising =>
        let p3 := smi_read bus p2.1 phy.phy_addr C22.LPA
        match p3.2 with
        | .error e => (phy, p3.1, .error e)
        | .ok lpa =>
          let nego := advertising &&& lpa
          (phy, p3.1, .ok (
            if nego &&& 0x0100 ≠ 0 then LinkStatus.Up Speed.s100 DuplexMode.Full
            else if nego &&& 0x0080 ≠ 0 then LinkStatus.Up Speed.s100 DuplexMode.Half
            else if nego &&& 0x0040 ≠ 0 then LinkStatus.Up Speed.s10 DuplexMode.Full
            else LinkStatus.Up Speed.s10 DuplexMode.Half))

/-- The four primitive operations a composite Clause 45 read issues when
every step is acknowledged, in order (see the repository's `read_test`). -/
def mmd_read_ops (phy_addr : Nat) (reg : C45) : List SmiOp :=
  [SmiOp.write phy_addr C22.MMD_CONTROL (Reg13Op.Addr ||| (reg.devad.val &&& DEV_MASK)),
   SmiOp.write phy_addr C22.MMD_DATA reg.regnum,
   SmiOp.write phy_addr C22.MMD_CONTROL (Reg13Op.Read ||| (reg.devad.val &&& DEV_MASK)),
   SmiOp.read phy_addr C22.MMD_DATA]

/-- The four primitive operations a composite Clause 45 write issues when
every step is acknowledged, in order (see the repository's `write_test`). -/
def mmd_write_ops (phy_addr : Nat) (reg : C45) (reg_val : Nat) : List SmiOp :=
  [SmiOp.write phy_addr C22.MMD_CONTROL (Reg13Op.Addr ||| (reg.devad.val &&& DEV_MASK)),
   SmiOp.write phy_addr C22.MMD_DATA reg.regnum,
   SmiOp.write phy_addr C22.MMD_CONTROL (Reg13Op.Write ||| (reg.devad.val &&& DEV_MASK)),
   SmiOp.write phy_addr C22.MMD_DATA reg_val]

/-- C1: for every phy address, device identifier and register number, the
default composite Clause 45 read — in both the blocking and the suspending
discipline — issues exactly the four primitive operations
write(MMD_CONTROL, Addr-opcode | (devad & 0x1f)), write(MMD_DATA, regnum),
write(MMD_CONTROL, Read-opcode | (devad & 0x1f)), read(MMD_DATA), in that
order, and returns exactly the result of the fourth (read) operation; the
device identifier is masked to its low five bits in both control words even
when it has higher bits set. -/
theorem smi_read_mmd_issues_four_ops {E : Type} (bus : Bus E) (phy_addr : Nat) (reg : C45)
    (h1 : bus.writeResp phy_addr C22.MMD_CONTROL
      (Reg13Op.Addr ||| (reg.devad.val &&& DEV_MASK)) [] = .ok ())
    (h2 : bus.writeResp phy_addr C22.MMD_DATA reg.regnum
      [SmiOp.write phy_addr C22.MMD_CONTROL
        (Reg13Op.Addr ||| (reg.devad.val &&& DEV_MASK))] = .ok ())
    (h3 : bus.writeResp phy_addr C22.MMD_CONTROL
      (Reg13Op.Read ||| (reg.devad.val &&& DEV_MASK))
      [SmiOp.write phy_addr C22.MMD_CONTROL
        (Reg13Op.Addr ||| (reg.devad.val &&& DEV_MASK)),
       SmiOp.write phy_addr C22.MMD_DATA reg.regnum] = .ok ()) :
    smi_read_mmd bus [] phy_addr reg =
      (mmd_read_ops phy_addr reg,
        bus.readResp phy_addr C22.MMD_DATA
          [SmiOp.write phy_addr C22.MMD_CONTROL
            (Reg13Op.Addr ||| (reg.devad.val &&& DEV_MASK)),
           SmiOp.write phy_addr C22.MMD_DATA reg.regnum,
           SmiOp.write phy_addr C22.MMD_CONTROL
            (Reg13Op.Read ||| (reg.devad.val &&& DEV_MASK))]) ∧
    Async.smi_read_mmd bus [] phy_addr reg =
      (mmd_read_ops phy_addr reg,
        bus.readResp phy_addr C22.MMD_DATA
          [SmiOp.write phy_addr C22.MMD_CONTROL
            (Reg13Op.Addr ||| (reg.devad.val &&& DEV_MASK)),
           SmiOp.write phy_addr C22.MMD_DATA reg.regnum,
           SmiOp.write phy_addr C22.MMD_CONTROL
            (Reg13Op.Read ||| (reg.devad.val &&& DEV_MASK))]) := by
  constructor
  · simp [smi_read_mmd, smi_write, smi_read, mmd_read_ops, h1, h2, h3]
  · simp [Async.smi_read_mmd, Async.smi_write, Async.smi_read, mmd_read_ops, h1, h2, h3]

/-- A recording bus that acknowledges every write and answers every read
with 0x4321, regardless of the trace. -/
def okBus : Bus Nat :=
  ⟨fun _ _ _ => .ok 0x4321, fun _ _ _ _ => .ok ()⟩

/-- Witness for C1: the composite read at phy address 1 of extended
register 0x1234 in device 0xBB (masked to 27). -/
theorem smi_read_mmd_issues_four_ops_witness :
    smi_read_mmd okBus [] 1 (C45.new ⟨0xBB⟩ 0x1234) =
      (mmd_read_ops 1 (C45.new ⟨0xBB⟩ 0x1234),
        okBus.readResp 1 C22.MMD_DATA
          [SmiOp.write 1 C22.MMD_CONTROL
            (Reg13Op.Addr ||| ((C45.new ⟨0xBB⟩ 0x1234).devad.val &&& DEV_MASK)),
           SmiOp.write 1 C22.MMD_DATA (C45.new ⟨0xBB⟩ 0x1234).regnum,
           SmiOp.write 1 C22.MMD_CONTROL
            (Reg13Op.Read ||| ((C45.new ⟨0xBB⟩ 0x1234).devad.val &&& DEV_MASK))]) ∧
    Async.smi_read_mmd okBus [] 1 (C45.new ⟨0xBB⟩ 0x1234) =
      (mmd_read_ops 1 (C45.new ⟨0xBB⟩ 0x1234),
        okBus.readResp 1 C22.MMD_DATA
          [SmiOp.write 1 C22.MMD_CONTROL
            (Reg13Op.Addr ||| ((C45.new ⟨0xBB⟩ 0x1234).devad.val &&& DEV_MASK)),
           SmiOp.write 1 C22.MMD_DATA (C45.new ⟨0xBB⟩ 0x1234).regnum,
           SmiOp.write 1 C22.MMD_CONTROL
            (Reg13Op.Read ||| ((C45.new ⟨0xBB⟩ 0x1234).devad.val &&& DEV_MASK))]) :=
  smi_read_mmd_issues_four_ops okBus 1 (C45.new ⟨0xBB⟩ 0x1234) rfl rfl rfl

/-- C2: for every phy address, device identifier, register number and
value, the default composite Clause 45 write — in both disciplines —
issues exactly the four primitive operations write(MMD_CONTROL,
Addr-opcode | (devad & 0x1f)), write(MMD_DATA, regnum), write(MMD_CONTROL,
Write-opcode | (devad & 0x1f)), write(MMD_DATA, value), and never issues
any primitive read. -/
theorem smi_write_mmd_issues_four_writes {E : Type} (bus : Bus E) (phy_addr : Nat)
    (reg : C45) (reg_val : Nat)
    (h1 : bus.writeResp phy_addr C22.MMD_CONTROL
      (Reg13Op.Addr ||| (reg.devad.val &&& DEV_MASK)) [] = .ok ())
    (h2 : bus.writeResp phy_addr C22.MMD_DATA reg.regnum
      [SmiOp.write phy_addr C22.MMD_CONTROL
        (Reg13Op.Addr ||| (reg.devad.val &&& DEV_MASK))] = .ok ())
    (h3 : bus.writeResp phy_addr C22.MMD_CONTROL
      (Reg13Op.Write ||| (reg.devad.val &&& DEV_MASK))
      [SmiOp.write phy_addr C22.MMD_CONTROL
        (Reg13Op.Addr ||| (reg.devad.val &&& DEV_MASK)),
       SmiOp.write phy_addr C22.MMD_DATA reg.regnum] = .ok ()) :
    smi_write_mmd bus [] phy_addr reg reg_val =
      (mmd_write_ops phy_addr reg reg_val,
        bus.writeResp phy_addr C22.MMD_DATA reg_val
          [SmiOp.write phy_addr C22.MMD_CONTROL
            (Reg13Op.Addr ||| (reg.devad.val &&& DEV_MASK)),
           SmiOp.write phy_addr C22.MMD_DATA reg.regnum,
           SmiOp.write phy_addr C22.MMD_CONTROL
            (Reg13Op.Write ||| (reg.devad.val &&& DEV_MASK))]) ∧
    Async.smi_write_mmd bus [] phy_addr reg reg_val =
      (mmd_write_ops phy_addr reg reg_val,
        bus.writeResp phy_addr C22.MMD_DATA reg_val
          [SmiOp.write phy_addr C22.MMD_CONTROL
            (Reg13Op.Addr ||| (reg.devad.val &&& DEV_MASK)),
           SmiOp.write phy_addr C22.MMD_DATA reg.regnum,
           SmiOp.write phy_addr C22.MMD_CONTROL
            (Reg13Op.Write ||| (reg.devad.val &&& DEV_MASK))]) ∧
    (mmd_write_ops phy_addr reg reg_val).all SmiOp.isWrite = true := by
  refine ⟨?_, ?_, ?_⟩
  · simp [smi_write_mmd, smi_write, mmd_write_ops, h1, h2, h3]
  · simp [Async.smi_write_mmd, Async.smi_write, mmd_write_ops, h1, h2, h3]
  · simp [mmd_write_ops, SmiOp.isWrite]

/-- Witness for C2: the composite write of 0xCDEF at phy address 0x1f to
extended register 0x3456 in device 0xBB (masked to 27). -/
theorem smi_write_mmd_issues_four_writes_witness :
    smi_write_mmd okBus [] 0x1f (C45.new ⟨0xBB⟩ 0x3456) 0xCDEF =
      (mmd_write_ops 0x1f (C45.new ⟨0xBB⟩ 0x3456) 0xCDEF,
        okBus.writeResp 0x1f C22.MMD_DATA 0xCDEF
          [SmiOp.write 0x1f C22.MMD_CONTROL
            (Reg13Op.Addr ||| ((C45.new ⟨0xBB⟩ 0x3456).devad.val &&& DEV_MASK)),
           SmiOp.write 0x1f C22.MMD_DATA (C45.new ⟨0xBB⟩ 0x3456).regnum,
           SmiOp.write 0x1f C22.MMD_CONTROL
            (Reg13Op.Write ||| ((C45.new ⟨0xBB⟩ 0x3456).devad.val &&& DEV_MASK))]) ∧
    Async.smi_write_mmd okBus [] 0x1f (C45.new ⟨0xBB⟩ 0x3456) 0xCDEF =
      (mmd_write_ops 0x1f (C45.new ⟨0xBB⟩ 0x3456) 0xCDEF,
        okBus.writeResp 0x1f C22.MMD_DATA 0xCDEF
          [SmiOp.write 0x1f C22.MMD_CONTROL
            (Reg13Op.Addr ||| ((C45.new ⟨0xBB⟩ 0x3456).devad.val &&& DEV_MASK)),
           SmiOp.write 0x1f C22.MMD_DATA (C45.new ⟨0xBB⟩ 0x3456).regnum,
           SmiOp.write 0x1f C22.MMD_CONTROL
            (Reg13Op.Write ||| ((C45.new ⟨0xBB⟩ 0x3456).devad.val &&& DEV_MASK))]) ∧
    (mmd_write_ops 0x1f (C45.new ⟨0xBB⟩ 0x3456) 0xCDEF).all SmiOp.isWrite = true :=
  smi_write_mmd_issues_four_writes okBus 0x1f (C45.new ⟨0xBB⟩ 0x3456) 0xCDEF rfl rfl rfl

/-- C3: for both composite Clause 45 operations and every step index
k ∈ 1..4, if the k-th primitive operation fails with bus error `e` (all
earlier steps having been acknowledged), the composite operation returns
exactly `e` — unwrapped, untranslated, without retry — and the trace is
exactly the first k primitive operations: the ops before step k were
issued and are not undone, and no op after step k is issued. -/
theorem mmd_first_error_aborts {E : Type} (bus : Bus E) (phy_addr : Nat) (reg : C45)
    (reg_val : Nat) (e : E) :
    (bus.writeResp phy_addr C22.MMD_CONTROL
        (Reg13Op.Addr ||| (reg.devad.val &&& DEV_MASK)) [] = .error e →
      smi_read_mmd bus [] phy_addr reg = ((mmd_read_ops phy_addr reg).take 1, .error e)) ∧
    (bus.writeResp phy_addr C22.MMD_CONTROL
        (Reg13Op.Addr ||| (reg.devad.val &&& DEV_MASK)) [] = .ok () →
      bus.writeResp phy_addr C22.MMD_DATA reg.regnum
        ((mmd_read_ops phy_addr reg).take 1) = .error e →
      smi_read_mmd bus [] phy_addr reg = ((mmd_read_ops phy_addr reg).take 2, .error e)) ∧
    (bus.writeResp phy_addr C22.MMD_CONTROL
        (Reg13Op.Addr ||| (reg.devad.val &&& DEV_MASK)) [] = .ok () →
      bus.writeResp phy_addr C22.MMD_DATA reg.regnum
        ((mmd_read_ops phy_addr reg).take 1) = .ok () →
      bus.writeResp phy_addr C22.MMD_CONTROL
        (Reg13Op.Read ||| (reg.devad.val &&& DEV_MASK))
        ((mmd_read_ops phy_addr reg).take 2) = .error e →
      smi_read_mmd bus [] phy_addr reg = ((mmd_read_ops phy_addr reg).take 3, .error e)) ∧
    (bus.writeResp phy_addr C22.MMD_CONTROL
        (Reg13Op.Addr ||| (reg.devad.val &&& DEV_MASK)) [] = .ok () →
      bus.writeResp phy_addr C22.MMD_DATA reg.regnum
        ((mmd_read_ops phy_addr reg).take 1) = .ok () →
      bus.writeResp phy_addr C22.MMD_CONTROL
        (Reg13Op.Read ||| (reg.devad.val &&& DEV_MASK))
        ((mmd_read_ops phy_addr reg).take 2) = .ok () →
      bus.readResp phy_addr C22.MMD_DATA
        ((mmd_read_ops phy_addr reg).take 3) = .error e →
      smi_read_mmd bus [] phy_addr reg = (mmd_read_ops phy_addr reg, .error e)) ∧
    (bus.writeResp phy_addr C22.MMD_CONTROL
        (Reg13Op.Addr ||| (reg.devad.val &&& DEV_MASK)) [] = .error e →
      smi_write_mmd bus [] phy_addr reg reg_val =
        ((mmd_write_ops phy_addr reg reg_val).take 1, .error e)) ∧
    (bus.writeResp phy_addr C22.MMD_CONTROL
        (Reg13Op.Addr ||| (reg.devad.val &&& DEV_MASK)) [] = .ok () →
      bus.writeResp phy_addr C22.MMD_DATA reg.regnum
        ((mmd_write_ops phy_addr reg reg_val).take 1) = .error e →
      smi_write_mmd bus [] phy_addr reg reg_val =
        ((mmd_write_ops phy_addr reg reg_val).take 2, .error e)) ∧
    (bus.writeResp phy_addr C22.MMD_CONTROL
        (Reg13Op.Addr ||| (reg.devad.val &&& DEV_MASK)) [] = .ok () →
      bus.writeResp phy_addr C22.MMD_DATA reg.regnum
        ((mmd_write_ops phy_addr reg reg_val).take 1) = .ok () →
      bus.writeResp phy_addr C22.MMD_CONTROL
        (Reg13Op.Write ||| (reg.devad.val &&& DEV_MASK))
        ((mmd_write_ops phy_addr reg reg_val).take 2) = .error e →
      smi_write_mmd bus [] phy_addr reg reg_val =
        ((mmd_write_ops phy_addr reg reg_val).take 3, .error e)) ∧
    (bus.writeResp phy_addr C22.MMD_CONTROL
        (Reg13Op.Addr ||| (reg.devad.val &&& DEV_MASK)) [] = .ok () →
      bus.writeResp phy_addr C22.MMD_DATA reg.regnum
        ((mmd_write_ops phy_addr reg reg_val).take 1) = .ok () →
      bus.writeResp phy_addr C22.MMD_CONTROL
        (Reg13Op.Write ||| (reg.devad.val &&& DEV_MASK))
        ((mmd_write_ops phy_addr reg reg_val).take 2) = .ok () →
      bus.writeResp phy_addr C22.MMD_DATA reg_val
        ((mmd_write_ops phy_addr reg reg_val).take 3) = .error e →
      smi_write_mmd bus [] phy_addr reg reg_val =
        (mmd_write_ops phy_addr reg reg_val, .error e)) := by
  refine ⟨?_, ?_, ?_, ?_, ?_, ?_, ?_, ?_⟩ <;>
    · intro h1
      first
      | (intro h2 h3 h4
         simp [smi_read_mmd, smi_write_mmd, smi_write, smi_read, mmd_read_ops,
           mmd_write_ops, List.take] at h2 h3 h4 ⊢
         simp [h1, h2, h3, h4])
      | (intro h2 h3
         simp [smi_read_mmd, smi_write_mmd, smi_write, smi_read, mmd_read_ops,
           mmd_write_ops, List.take] at h2 h3 ⊢
         simp [h1, h2, h3])
      | (intro h2
         simp [smi_read_mmd, smi_write_mmd, smi_write, smi_read, mmd_read_ops,
           mmd_write_ops, List.take] at h2 ⊢
         simp [h1, h2])
      | (simp [smi_read_mmd, smi_write_mmd, smi_write, smi_read, mmd_read_ops,
           mmd_write_ops, List.take]
         simp [h1])

/-- A bus whose MMD_DATA write acknowledgements fail with error 9 while
every other primitive succeeds, so a composite operation's second step is
its first failure. -/
def failStep2Bus : Bus Nat :=
  ⟨fun _ _ _ => .ok 0,
   fun _ reg _ _ => if reg = C22.MMD_DATA then .error 9 else .ok ()⟩

/-- Witness for C3: on `failStep2Bus` the composite read at phy address 3
of register 7 in device 2 stops after its second primitive operation and
returns the bus error 9 unchanged. -/
theorem mmd_first_error_aborts_witness :
    smi_read_mmd failStep2Bus [] 3 (C45.new ⟨2⟩ 7) =
      ((mmd_read_ops 3 (C45.new ⟨2⟩ 7)).take 2, .error 9) :=
  (mmd_first_error_aborts failStep2Bus 3 (C45.new ⟨2⟩ 7) 0 9).2.1 rfl rfl

/-- C4: when the basic-mode-status read shows auto-negotiation complete
and link up, `poll_link` reads ADVERTISE then LPA, computes
`nego = advertising & lpa`, and returns Up{100,Full} if bit 0x0100 is set,
else Up{100,Half} if bit 0x0080 is set, else Up{10,Full} if bit 0x0040 is
set, else Up{10,Half}; it always returns some Up value in this case —
in particular nego = 0x0180 yields Up{100,Full}, nego = 0x0040 yields
Up{10,Full}, and a nego with none of the three bits yields Up{10,Half}. -/
theorem poll_link_decodes_negotiation {E : Type} (bus : Bus E) (phy : GenericPhy)
    (bmsr advertising lpa : Nat)
    (h1 : bus.readResp phy.phy_addr C22.BMSR [] = .ok bmsr)
    (h2 : bmsr &&& PHY_REG_BSR_ANDONE ≠ 0)
    (h3 : bmsr &&& PHY_REG_BSR_UP ≠ 0)
    (h4 : bus.readResp phy.phy_addr C22.ADVERTISE
      [SmiOp.read phy.phy_addr C22.BMSR] = .ok advertising)
    (h5 : bus.readResp phy.phy_addr C22.LPA
      [SmiOp.read phy.phy_addr C22.BMSR,
       SmiOp.read phy.phy_addr C22.ADVERTISE] = .ok lpa) :
    poll_link bus phy [] =
      (phy,
       [SmiOp.read phy.phy_addr C22.BMSR,
        SmiOp.read phy.phy_addr C22.ADVERTISE,
        SmiOp.read phy.phy_addr C22.LPA],
       .ok (if (advertising &&& lpa) &&& 0x0100 ≠ 0 then
              LinkStatus.Up Speed.s100 DuplexMode.Full
            else if (advertising &&& lpa) &&& 0x0080 ≠ 0 then
              LinkStatus.Up Speed.s100 DuplexMode.Half
            else if (advertising &&& lpa) &&& 0x0040 ≠ 0 then
              LinkStatus.Up Speed.s10 DuplexMode.Full
            else LinkStatus.Up Speed.s10 DuplexMode.Half)) ∧
    (∃ s d, (poll_link bus phy []).2.2 = .ok (LinkStatus.Up s d)) ∧
    (advertising &&& lpa = 0x0180 →
      (poll_link bus phy []).2.2 = .ok (LinkStatus.Up Speed.s100 DuplexMode.Full)) ∧
    (advertising &&& lpa = 0x0040 →
      (poll_link bus phy []).2.2 = .ok (LinkStatus.Up Speed.s10 DuplexMode.Full)) ∧
    ((advertising &&& lpa) &&& 0x0100 = 0 → (advertising &&& lpa) &&& 0x0080 = 0 →
      (advertising &&& lpa) &&& 0x0040 = 0 →
      (poll_link bus phy []).2.2 = .ok (LinkStatus.Up Speed.s10 DuplexMode.Half)) := by
  have hmain : poll_link bus phy [] =
      (phy,
       [SmiOp.read phy.phy_addr C22.BMSR,
        SmiOp.read phy.phy_addr C22.ADVERTISE,
        SmiOp.read phy.phy_addr C22.LPA],
       .ok (if (advertising &&& lpa) &&& 0x0100 ≠ 0 then
              LinkStatus.Up Speed.s100 DuplexMode.Full
            else if (advertising &&& lpa) &&& 0x0080 ≠ 0 then
              LinkStatus.Up Speed.s100 DuplexMode.Half
            else if (advertising &&& lpa) &&& 0x0040 ≠ 0 then
              LinkStatus.Up Speed.s10 DuplexMode.Full
            else LinkStatus.Up Speed.s10 DuplexMode.Half)) := by
    simp [poll_link, smi_read, h1, h2, h3, h4, h5]
  refine ⟨hmain, ?_, ?_, ?_, ?_⟩
  · rw [hmain]
    dsimp only
    split_ifs <;> exact ⟨_, _, rfl⟩
  · intro h
    rw [hmain]
    exact congrArg Except.ok (by rw [h]; decide)
  · intro h
    rw [hmain]
    exact congrArg Except.ok (by rw [h]; decide)
  · intro ha hb hc
    rw [hmain]
    exact congrArg Except.ok (by rw [ha, hb, hc]; decide)

/-- A bus on which auto-negotiation is complete with the link up
(BMSR = 0x24) and both partners advertise 100Base-TX full and half duplex
(ADVERTISE = LPA = 0x0180). -/
def linkBus : Bus Nat :=
  ⟨fun _ reg _ => if reg = C22.BMSR then .ok 0x24 else .ok 0x0180,
   fun _ _ _ _ => .ok ()⟩

/-- Witness for C4 on `linkBus` at phy address 0: nego = 0x0180 resolves
to 100 Mbit full duplex. -/
theorem poll_link_decodes_negotiation_witness :
    poll_link linkBus ⟨0, 500⟩ [] =
      (⟨0, 500⟩,
       [SmiOp.read (GenericPhy.mk 0 500).phy_addr C22.BMSR,
        SmiOp.read (GenericPhy.mk 0 500).phy_addr C22.ADVERTISE,
        SmiOp.read (GenericPhy.mk 0 500).phy_addr C22.LPA],
       .ok (if ((0x0180 : Nat) &&& 0x0180) &&& 0x0100 ≠ 0 then
              LinkStatus.Up Speed.s100 DuplexMode.Full
            else if ((0x0180 : Nat) &&& 0x0180) &&& 0x0080 ≠ 0 then
              LinkStatus.Up Speed.s100 DuplexMode.Half
            else if ((0x0180 : Nat) &&& 0x0180) &&& 0x0040 ≠ 0 then
              LinkStatus.Up Speed.s10 DuplexMode.Full
            else LinkStatus.Up Speed.s10 DuplexMode.Half)) ∧
    (∃ s d, (poll_link linkBus ⟨0, 500⟩ []).2.2 = .ok (LinkStatus.Up s d)) ∧
    ((0x0180 : Nat) &&& 0x0180 = 0x0180 →
      (poll_link linkBus ⟨0, 500⟩ []).2.2 =
        .ok (LinkStatus.Up Speed.s100 DuplexMode.Full)) ∧
    ((0x0180 : Nat) &&& 0x0180 = 0x0040 →
      (poll_link linkBus ⟨0, 500⟩ []).2.2 =
        .ok (LinkStatus.Up Speed.s10 DuplexMode.Full)) ∧
    (((0x0180 : Nat) &&& 0x0180) &&& 0x0100 = 0 →
      ((0x0180 : Nat) &&& 0x0180) &&& 0x0080 = 0 →
      ((0x0180 : Nat) &&& 0x0180) &&& 0x0040 = 0 →
      (poll_link linkBus ⟨0, 500⟩ []).2.2 =
        .ok (LinkStatus.Up Speed.s10 DuplexMode.Half)) :=
  poll_link_decodes_negotiation linkBus ⟨0, 500⟩ 0x24 0x0180 0x0180
    rfl (by decide) (by decide) rfl rfl

/-- C5: when the BMSR read shows auto-negotiation incomplete — or complete
but with the link-up bit clear — `poll_link` returns Ok(Down) after
issuing only that single primitive read: it does not read the ADVERTISE or
LPA registers. -/
theorem poll_link_down_single_read {E : Type} (bus : Bus E) (phy : GenericPhy)
    (bmsr : Nat)
    (h1 : bus.readResp phy.phy_addr C22.BMSR [] = .ok bmsr) :
    (bmsr &&& PHY_REG_BSR_ANDONE = 0 →
      poll_link bus phy [] =
        (phy, [SmiOp.read phy.phy_addr C22.BMSR], .ok LinkStatus.Down)) ∧
    (bmsr &&& PHY_REG_BSR_ANDONE ≠ 0 → bmsr &&& PHY_REG_BSR_UP = 0 →
      poll_link bus phy [] =
        (phy, [SmiOp.read phy.phy_addr C22.BMSR], .ok LinkStatus.Down)) := by
  constructor
  · intro h2
    simp [poll_link, smi_read, h1, h2]
  · intro h2 h3
    simp [poll_link, smi_read, h1, h2, h3]

/-- A bus whose BMSR reads as 0: auto-negotiation not complete. -/
def negoDownBus : Bus Nat :=
  ⟨fun _ _ _ => .ok 0, fun _ _ _ _ => .ok ()⟩

/-- Witness for C5 on `negoDownBus` at phy address 4: BMSR = 0 has the
auto-negotiation-complete bit clear, so the poll is Down after one read. -/
theorem poll_link_down_single_read_witness :
    poll_link negoDownBus ⟨4, 500⟩ [] =
      (⟨4, 500⟩, [SmiOp.read (GenericPhy.mk 4 500).phy_addr C22.BMSR],
        .ok LinkStatus.Down) :=
  (poll_link_down_single_read negoDownBus ⟨4, 500⟩ 0 rfl).1 (by decide)

/-- The trace a run of discovery leaves behind over `n` consecutive
candidate addresses starting at `a` when none of them responds: for each
candidate, one RESET write to BMCR followed by the full budget of ten BMCR
reads. -/
def disc_miss_pattern : Nat → Nat → List SmiOp
  | _, 0 => []
  | a, n + 1 =>
    SmiOp.write a C22.BMCR PHY_REG_BCR_RESET ::
      (List.replicate 10 (SmiOp.read a C22.BMCR) ++ disc_miss_pattern (a + 1) n)

/-- Every operation in `disc_miss_pattern a n` targets BMCR at an address
in `[a, a + n)`, and any write in it carries the RESET bit. -/
theorem disc_miss_pattern_ops : ∀ n a op, op ∈ disc_miss_pattern a n →
    a ≤ op.addr ∧ op.addr < a + n ∧ op.regOf = C22.BMCR ∧
      (op.isWrite = true → op = SmiOp.write op.addr C22.BMCR PHY_REG_BCR_RESET) := by
  intro n
  induction n with
  | zero => intro a op h; simp [disc_miss_pattern] at h
  | succ n ih =>
    intro a op h
    simp only [disc_miss_pattern, List.mem_cons, List.mem_append, List.mem_replicate] at h
    rcases h with h | ⟨_, h⟩ | h
    · subst h
      refine ⟨Nat.le_refl a, by simp only [SmiOp.addr]; omega, rfl, fun _ => rfl⟩
    · subst h
      exact ⟨Nat.le_refl a, by simp only [SmiOp.addr]; omega, rfl, by simp [SmiOp.isWrite]⟩
    · obtain ⟨h1, h2, h3, h4⟩ := ih (a + 1) op h
      exact ⟨by omega, by omega, h3, h4⟩

/-- If the bounded BMCR poll times out, it issued exactly its whole budget
of `n` reads at its address. -/
theorem phy_reset_poll_timeout_trace {E : Type} (bus : Bus E) (addr : Nat) :
    ∀ n tr tr2, phy_reset_poll bus tr addr n = (tr2, PollOutcome.timeout) →
      tr2 = tr ++ List.replicate n (SmiOp.read addr C22.BMCR) := by
  intro n
  induction n with
  | zero =>
    intro tr tr2 h
    simp only [phy_reset_poll, Prod.mk.injEq] at h
    simp [h.1.symm]
  | succ n ih =>
    intro tr tr2 h
    rcases hr : bus.readResp addr C22.BMCR tr with e | v
    · simp [phy_reset_poll, smi_read, hr] at h
    · simp only [phy_reset_poll, smi_read, hr] at h
      by_cases hv : v &&& PHY_REG_BCR_RESET = PHY_REG_BCR_RESET
      · rw [if_neg (by simpa using hv)] at h
        have := ih (tr ++ [SmiOp.read addr C22.BMCR]) tr2 h
        simpa [List.replicate_succ, List.append_assoc] using this
      · rw [if_pos (by simpa using hv)] at h
        simp at h

/-- If the bounded BMCR poll reports `found`, it issued `k` reads at its
address for some `1 ≤ k ≤ n` (the last of which showed the RESET bit
clear) and stopped. -/
theorem phy_reset_poll_found_trace {E : Type} (bus : Bus E) (addr : Nat) :
    ∀ n tr tr2, phy_reset_poll bus tr addr n = (tr2, PollOutcome.found) →
      ∃ k, 1 ≤ k ∧ k ≤ n ∧ tr2 = tr ++ List.replicate k (SmiOp.read addr C22.BMCR) := by
  intro n
  induction n with
  | zero =>
    intro tr tr2 h
    simp [phy_reset_poll] at h
  | succ n ih =>
    intro tr tr2 h
    rcases hr : bus.readResp addr C22.BMCR tr with e | v
    · simp [phy_reset_poll, smi_read, hr] at h
    · simp only [phy_reset_poll, smi_read, hr] at h
      by_cases hv : v &&& PHY_REG_BCR_RESET = PHY_REG_BCR_RESET
      · rw [if_neg (by simpa using hv)] at h
        obtain ⟨k, hk1, hk2, hk3⟩ := ih (tr ++ [SmiOp.read addr C22.BMCR]) tr2 h
        refine ⟨k + 1, by omega, by omega, ?_⟩
        simpa [List.replicate_succ, List.append_assoc] using hk3
      · rw [if_pos (by simpa using hv)] at h
        simp only [Prod.mk.injEq] at h
        exact ⟨1, Nat.le_refl 1, by omega, by simp [h.1.symm]⟩

/-- If discovery over `n` consecutive candidates starting at `a` adopts
address `A`, then `a ≤ A < a + n`, every candidate below `A` got exactly
one RESET write and its full ten-read budget (in ascending address
order), and `A` itself got one RESET write followed by `1 ≤ k ≤ 10`
reads; nothing was issued at any higher address. -/
theorem phy_reset_discover_found_trace {E : Type} (bus : Bus E) :
    ∀ n a tr tr2 A, phy_reset_discover bus tr a n = (tr2, DiscOutcome.found A) →
      a ≤ A ∧ A < a + n ∧ ∃ k, 1 ≤ k ∧ k ≤ 10 ∧
        tr2 = tr ++ disc_miss_pattern a (A - a) ++
          (SmiOp.write A C22.BMCR PHY_REG_BCR_RESET ::
            List.replicate k (SmiOp.read A C22.BMCR)) := by
  intro n
  induction n with
  | zero =>
    intro a tr tr2 A h
    simp [phy_reset_discover] at h
  | succ n ih =>
    intro a tr tr2 A h
    rcases hw : bus.writeResp a C22.BMCR PHY_REG_BCR_RESET tr with e | u
    · simp [phy_reset_discover, smi_write, hw] at h
    · simp only [phy_reset_discover, smi_write, hw] at h
      rcases hp : phy_reset_poll bus (tr ++ [SmiOp.write a C22.BMCR PHY_REG_BCR_RESET]) a 10
        with ⟨tr2', out⟩
      rw [hp] at h
      cases out with
      | found =>
        simp only [Prod.mk.injEq, DiscOutcome.found.injEq] at h
        obtain ⟨htr, hA⟩ := h
        subst htr
        subst hA
        obtain ⟨k, hk1, hk2, hk3⟩ := phy_reset_poll_found_trace bus a 10 _ _ hp
        refine ⟨Nat.le_refl a, by omega, k, hk1, hk2, ?_⟩
        rw [hk3, Nat.sub_self]
        simp [disc_miss_pattern]
      | timeout =>
        obtain ⟨h1, h2, k, hk1, hk2, hk3⟩ := ih (a + 1) tr2' tr2 A h
        have htr' := phy_reset_poll_timeout_trace bus a 10 _ _ hp
        refine ⟨by omega, by omega, k, hk1, hk2, ?_⟩
        have hAa : A - a = (A - (a + 1)) + 1 := by omega
        rw [hk3, htr', hAa]
        simp [disc_miss_pattern, List.append_assoc]
      | err e =>
        simp at h

/-- C6: when `phy_reset` runs with the sentinel address 0xFF and succeeds,
it has tried candidate addresses in ascending order starting at 0 — for
each candidate below the adopted address `A` one RESET write to BMCR
followed by its full ten-read budget, then at `A` one RESET write followed
by `1 ≤ k ≤ 10` BMCR reads — it stores `A` (< 32) as the resolved address
and returns immediately, and every primitive operation it issued is at an
address ≤ `A` and targets BMCR: addresses above `A` see no operation. -/
theorem phy_reset_discovery_adopts_first_responder {E : Type} (bus : Bus E)
    (phy : GenericPhy) (fuel : Nat)
    (hphy : phy.phy_addr = 0xFF)
    (hok : (phy_reset bus phy fuel []).2.2 = ResetOutcome.ok) :
    (phy_reset bus phy fuel []).1.phy_addr < 32 ∧
    (∃ k, 1 ≤ k ∧ k ≤ 10 ∧
      (phy_reset bus phy fuel []).2.1 =
        disc_miss_pattern 0 ((phy_reset bus phy fuel []).1.phy_addr) ++
          (SmiOp.write ((phy_reset bus phy fuel []).1.phy_addr) C22.BMCR
              PHY_REG_BCR_RESET ::
            List.replicate k
              (SmiOp.read ((phy_reset bus phy fuel []).1.phy_addr) C22.BMCR))) ∧
    (∀ op ∈ (phy_reset bus phy fuel []).2.1,
      op.addr ≤ (phy_reset bus phy fuel []).1.phy_addr ∧ op.regOf = C22.BMCR) := by
  obtain ⟨tr2, A, hd⟩ : ∃ tr2 A,
      phy_reset_discover bus [] 0 32 = (tr2, DiscOutcome.found A) := by
    rcases hd : phy_reset_discover bus [] 0 32 with ⟨tr2, out⟩
    cases out with
    | found A => exact ⟨tr2, A, rfl⟩
    | nodev => simp [phy_reset, hphy, hd] at hok
    | err e => simp [phy_reset, hphy, hd] at hok
  have hps : phy_reset bus phy fuel [] =
      ({ phy with phy_addr := A }, tr2, ResetOutcome.ok) := by
    simp [phy_reset, hphy, hd]
  obtain ⟨h0A, hA32, k, hk1, hk2, htr⟩ :=
    phy_reset_discover_found_trace bus 32 0 [] tr2 A hd
  simp only [List.nil_append, Nat.sub_zero] at htr
  rw [hps]
  dsimp only
  refine ⟨by omega, ⟨k, hk1, hk2, htr⟩, ?_⟩
  intro op hop
  rw [htr] at hop
  simp only [List.mem_append, List.mem_cons, List.mem_replicate] at hop
  rcases hop with hop | hop | ⟨_, hop⟩
  · obtain ⟨_, hlt, hreg, _⟩ := disc_miss_pattern_ops A 0 op hop
    exact ⟨by omega, hreg⟩
  · subst hop
    exact ⟨Nat.le_refl A, rfl⟩
  · subst hop
    exact ⟨Nat.le_refl A, rfl⟩

/-- A bus on which only phy address 7 responds: a BMCR read at address 7
answers 0 (RESET clear), every other read answers 0x8000 (RESET still
set); all writes are acknowledged. -/
def only7Bus : Bus Nat :=
  ⟨fun a _ _ => if a = 7 then .ok 0 else .ok 0x8000,
   fun _ _ _ _ => .ok ()⟩

/-- Witness for C6: discovery on `only7Bus` resolves address 7, with
addresses 0-6 each getting a write and ten reads and address 7 a write
and one read; addresses above 7 see no operation. -/
theorem phy_reset_discovery_adopts_first_responder_witness :
    (phy_reset only7Bus GenericPhy.new_auto 0 []).1.phy_addr < 32 ∧
    (∃ k, 1 ≤ k ∧ k ≤ 10 ∧
      (phy_reset only7Bus GenericPhy.new_auto 0 []).2.1 =
        disc_miss_pattern 0 ((phy_reset only7Bus GenericPhy.new_auto 0 []).1.phy_addr) ++
          (SmiOp.write ((phy_reset only7Bus GenericPhy.new_auto 0 []).1.phy_addr)
              C22.BMCR PHY_REG_BCR_RESET ::
            List.replicate k
              (SmiOp.read ((phy_reset only7Bus GenericPhy.new_auto 0 []).1.phy_addr)
                C22.BMCR))) ∧
    (∀ op ∈ (phy_reset only7Bus GenericPhy.new_auto 0 []).2.1,
      op.addr ≤ (phy_reset only7Bus GenericPhy.new_auto 0 []).1.phy_addr ∧
        op.regOf = C22.BMCR) :=
  phy_reset_discovery_adopts_first_responder only7Bus GenericPhy.new_auto 0
    rfl (by decide)

/-- On a bus whose BMCR reads always succeed with the RESET bit still set,
the bounded poll always times out after issuing its whole budget. -/
theorem phy_reset_poll_allset {E : Type} (bus : Bus E)
    (hr : ∀ a tr, ∃ v, bus.readResp a C22.BMCR tr = .ok v ∧
      v &&& PHY_REG_BCR_RESET = PHY_REG_BCR_RESET) :
    ∀ n a tr, phy_reset_poll bus tr a n =
      (tr ++ List.replicate n (SmiOp.read a C22.BMCR), PollOutcome.timeout) := by
  intro n
  induction n with
  | zero => intro a tr; simp [phy_reset_poll]
  | succ n ih =>
    intro a tr
    obtain ⟨v, hv, hbit⟩ := hr a tr
    simp only [phy_reset_poll, smi_read, hv]
    rw [if_neg (by simpa using hbit)]
    rw [ih a (tr ++ [SmiOp.read a C22.BMCR])]
    simp [List.replicate_succ, List.append_assoc]

/-- On a bus whose writes are all acknowledged and whose BMCR reads always
show RESET still set, discovery exhausts all its candidates, leaving the
full miss pattern on the trace, and reports no device. -/
theorem phy_reset_discover_allset {E : Type} (bus : Bus E)
    (hw : ∀ a v tr, bus.writeResp a C22.BMCR v tr = .ok ())
    (hr : ∀ a tr, ∃ v, bus.readResp a C22.BMCR tr = .ok v ∧
      v &&& PHY_REG_BCR_RESET = PHY_REG_BCR_RESET) :
    ∀ n a tr, phy_reset_discover bus tr a n =
      (tr ++ disc_miss_pattern a n, DiscOutcome.nodev) := by
  intro n
  induction n with
  | zero => intro a tr; simp [phy_reset_discover, disc_miss_pattern]
  | succ n ih =>
    intro a tr
    simp only [phy_reset_discover, smi_write, hw, phy_reset_poll_allset bus hr]
    rw [ih]
    simp [disc_miss_pattern, List.append_assoc]

set_option maxRecDepth 40000

/-- C7: if no BMCR read at any candidate address ever shows the RESET bit
clear (and no primitive fails), `phy_reset` in discovery mode reaches the
fatal "PHY did not respond" outcome (the panic, not a returned error)
after issuing exactly 32 RESET writes and exactly 320 BMCR read attempts
(352 primitive operations in total). -/
theorem phy_reset_discovery_exhausts_panics {E : Type} (bus : Bus E)
    (phy : GenericPhy) (fuel : Nat)
    (hphy : phy.phy_addr = 0xFF)
    (hw : ∀ a v tr, bus.writeResp a C22.BMCR v tr = .ok ())
    (hr : ∀ a tr, ∃ v, bus.readResp a C22.BMCR tr = .ok v ∧
      v &&& PHY_REG_BCR_RESET = PHY_REG_BCR_RESET) :
    phy_reset bus phy fuel [] = (phy, disc_miss_pattern 0 32, ResetOutcome.nodev) ∧
    (disc_miss_pattern 0 32).countP (fun op => op.isWrite) = 32 ∧
    (disc_miss_pattern 0 32).countP (fun op => op.isRead) = 320 ∧
    (disc_miss_pattern 0 32).length = 352 := by
  refine ⟨?_, by decide, by decide, by decide⟩
  simp [phy_reset, hphy, phy_reset_discover_allset bus hw hr 32 0 []]

/-- A bus on which every BMCR read answers 0x8000 (RESET never clears) and
every write is acknowledged. -/
def allSetBus : Bus Nat :=
  ⟨fun _ _ _ => .ok 0x8000, fun _ _ _ _ => .ok ()⟩

/-- Witness for C7: on `allSetBus`, discovery from `new_auto` panics after
the full 32-write / 320-read miss pattern. -/
theorem phy_reset_discovery_exhausts_panics_witness :
    phy_reset allSetBus GenericPhy.new_auto 0 [] =
      (GenericPhy.new_auto, disc_miss_pattern 0 32, ResetOutcome.nodev) ∧
    (disc_miss_pattern 0 32).countP (fun op => op.isWrite) = 32 ∧
    (disc_miss_pattern 0 32).countP (fun op => op.isRead) = 320 ∧
    (disc_miss_pattern 0 32).length = 352 :=
  phy_reset_discovery_exhausts_panics allSetBus GenericPhy.new_auto 0 rfl
    (fun _ _ _ => rfl) (fun _ _ => ⟨0x8000, rfl, by decide⟩)

/-- C8: a bus error during discovery is propagated immediately and
verbatim, never converted into advancing to the next candidate: (1) a
failing RESET write aborts discovery right after that write; (2) a
failing BMCR read aborts the poll right after that read; (3) a poll that
ends in a bus error makes discovery return that error with no further
operation at this or any later candidate; (4) a discovery error becomes
`phy_reset`'s own error, with the stored address unchanged; (5) only the
non-error timeout outcome advances discovery to the next candidate. -/
theorem phy_reset_discovery_error_propagates {E : Type} (bus : Bus E) :
    (∀ tr a n e, bus.writeResp a C22.BMCR PHY_REG_BCR_RESET tr = .error e →
      phy_reset_discover bus tr a (n + 1) =
        (tr ++ [SmiOp.write a C22.BMCR PHY_REG_BCR_RESET], DiscOutcome.err e)) ∧
    (∀ tr a n e, bus.readResp a C22.BMCR tr = .error e →
      phy_reset_poll bus tr a (n + 1) =
        (tr ++ [SmiOp.read a C22.BMCR], PollOutcome.err e)) ∧
    (∀ tr tr2 a n e, bus.writeResp a C22.BMCR PHY_REG_BCR_RESET tr = .ok () →
      phy_reset_poll bus (tr ++ [SmiOp.write a C22.BMCR PHY_REG_BCR_RESET]) a 10 =
        (tr2, PollOutcome.err e) →
      phy_reset_discover bus tr a (n + 1) = (tr2, DiscOutcome.err e)) ∧
    (∀ (phy : GenericPhy) fuel tr2 e, phy.phy_addr = 0xFF →
      phy_reset_discover bus [] 0 32 = (tr2, DiscOutcome.err e) →
      phy_reset bus phy fuel [] = (phy, tr2, ResetOutcome.err e)) ∧
    (∀ tr tr2 a n, bus.writeResp a C22.BMCR PHY_REG_BCR_RESET tr = .ok () →
      phy_reset_poll bus (tr ++ [SmiOp.write a C22.BMCR PHY_REG_BCR_RESET]) a 10 =
        (tr2, PollOutcome.timeout) →
      phy_reset_discover bus tr a (n + 1) = phy_reset_discover bus tr2 (a + 1) n) := by
  refine ⟨?_, ?_, ?_, ?_, ?_⟩
  · intro tr a n e h
    simp [phy_reset_discover, smi_write, h]
  · intro tr a n e h
    simp [phy_reset_poll, smi_read, h]
  · intro tr tr2 a n e hw hp
    simp [phy_reset_discover, smi_write, hw, hp]
  · intro phy fuel tr2 e hphy hd
    simp [phy_reset, hphy, hd]
  · intro tr tr2 a n hw hp
    simp [phy_reset_discover, smi_write, hw, hp]

/-- A bus that refuses every write acknowledgement with error 7. -/
def failWriteBus : Bus Nat :=
  ⟨fun _ _ _ => .ok 0, fun _ _ _ _ => .error 7⟩

/-- Witness for C8: on `failWriteBus`, discovery from `new_auto` fails at
its very first RESET write and `phy_reset` returns that error unchanged,
with the sentinel address still stored. -/
theorem phy_reset_discovery_error_propagates_witness :
    phy_reset failWriteBus GenericPhy.new_auto 0 [] =
      (GenericPhy.new_auto,
        [] ++ [SmiOp.write 0 C22.BMCR PHY_REG_BCR_RESET], ResetOutcome.err 7) :=
  (phy_reset_discovery_error_propagates failWriteBus).2.2.2.1 GenericPhy.new_auto 0
    ([] ++ [SmiOp.write 0 C22.BMCR PHY_REG_BCR_RESET]) 7 rfl
    ((phy_reset_discovery_error_propagates failWriteBus).1 [] 0 31 7 rfl)

/-- C9: the stored phy address changes at most once, from the sentinel
0xFF to a value < 32, and only inside a discovery-mode `phy_reset`:
`new` stores the asserted (< 32) explicit address, `new_auto` stores the
sentinel; `phy_reset` at a known address never modifies the state;
discovery-mode `phy_reset` leaves the state unchanged unless it succeeds,
in which case the stored address is < 32; and `phy_init`, `poll_link` and
`set_poll_interval` never modify the stored address. -/
theorem generic_phy_addr_stable :
    (∀ a phy0, GenericPhy.new a = some phy0 → phy0.phy_addr = a ∧ phy0.phy_addr < 32) ∧
    (GenericPhy.new_auto.phy_addr = 0xFF) ∧
    (∀ (E : Type) (bus : Bus E) (phy : GenericPhy) (fuel : Nat) (tr : List SmiOp),
      phy.phy_addr ≠ 0xFF → (phy_reset bus phy fuel tr).1 = phy) ∧
    (∀ (E : Type) (bus : Bus E) (phy : GenericPhy) (fuel : Nat) (tr : List SmiOp),
      phy.phy_addr = 0xFF →
        ((phy_reset bus phy fuel tr).2.2 = ResetOutcome.ok →
          (phy_reset bus phy fuel tr).1.phy_addr < 32) ∧
        ((phy_reset bus phy fuel tr).2.2 ≠ ResetOutcome.ok →
          (phy_reset bus phy fuel tr).1 = phy)) ∧
    (∀ (E : Type) (bus : Bus E) (phy : GenericPhy) (tr : List SmiOp),
      (phy_init bus phy tr).1 = phy) ∧
    (∀ (E : Type) (bus : Bus E) (phy : GenericPhy) (tr : List SmiOp),
      (poll_link bus phy tr).1 = phy) ∧
    (∀ (phy : GenericPhy) (d : Nat),
      (GenericPhy.set_poll_interval phy d).phy_addr = phy.phy_addr) := by
  refine ⟨?_, rfl, ?_, ?_, ?_, ?_, fun phy d => rfl⟩
  · intro a phy0 h
    unfold GenericPhy.new at h
    split at h
    · cases h
      exact ⟨rfl, by assumption⟩
    · cases h
  · intro E bus phy fuel tr h
    rw [phy_reset, if_neg h]
    rcases hw : bus.writeResp phy.phy_addr C22.BMCR PHY_REG_BCR_RESET tr with e | u
    · simp [smi_write, hw]
    · simp only [smi_write, hw]
      rcases hwait : phy_reset_wait bus phy.phy_addr
          (tr ++ [SmiOp.write phy.phy_addr C22.BMCR PHY_REG_BCR_RESET]) fuel
        with ⟨tr2, out⟩
      cases out <;> simp [hwait]
  · intro E bus phy fuel tr hphy
    rcases hd : phy_reset_discover bus tr 0 32 with ⟨tr2, out⟩
    cases out with
    | found A =>
      have hps : phy_reset bus phy fuel tr =
          ({ phy with phy_addr := A }, tr2, ResetOutcome.ok) := by
        simp [phy_reset, hphy, hd]
      obtain ⟨_, hA32, _⟩ := phy_reset_discover_found_trace bus 32 0 tr tr2 A hd
      constructor
      · intro _
        rw [hps]
        dsimp only
        omega
      · intro hne
        exact absurd (by rw [hps]) hne
    | nodev =>
      have hps : phy_reset bus phy fuel tr = (phy, tr2, ResetOutcome.nodev) := by
        simp [phy_reset, hphy, hd]
      constructor
      · intro hok
        rw [hps] at hok
        cases hok
      · intro _
        rw [hps]
    | err e =>
      have hps : phy_reset bus phy fuel tr = (phy, tr2, ResetOutcome.err e) := by
        simp [phy_reset, hphy, hd]
      constructor
      · intro hok
        rw [hps] at hok
        cases hok
      · intro _
        rw [hps]
  · intro E bus phy tr
    rcases hm : (smi_write_mmd bus tr phy.phy_addr (C45.new Mmd.PCS PHY_REG_WUCSR) 0).2
      with e | u <;> simp [phy_init, hm]
  · intro E bus phy tr
    rcases h1 : bus.readResp phy.phy_addr C22.BMSR tr with e | bmsr
    · simp [poll_link, smi_read, h1]
    · by_cases hA : bmsr &&& PHY_REG_BSR_ANDONE = 0
      · simp [poll_link, smi_read, h1, hA]
      · by_cases hU : bmsr &&& PHY_REG_BSR_UP = 0
        · simp [poll_link, smi_read, h1, hA, hU]
        · rcases h2 : bus.readResp phy.phy_addr C22.ADVERTISE
              (tr ++ [SmiOp.read phy.phy_addr C22.BMSR]) with e | adv
          · simp [poll_link, smi_read, h1, hA, hU, h2]
          · rcases h3 : bus.readResp phy.phy_addr C22.LPA
                (tr ++ [SmiOp.read phy.phy_addr C22.BMSR,
                  SmiOp.read phy.phy_addr C22.ADVERTISE]) with e | lpa
            · simp [poll_link, smi_read, h1, hA, hU, h2, h3]
            · simp [poll_link, smi_read, h1, hA, hU, h2, h3]

/-- Witness for C9: a known-address reset (address 5) on `okBus` leaves
the driver state untouched. -/
theorem generic_phy_addr_stable_witness :
    (phy_reset okBus ⟨5, 500⟩ 1 []).1 = (⟨5, 500⟩ : GenericPhy) :=
  generic_phy_addr_stable.2.2.1 Nat okBus ⟨5, 500⟩ 1 [] (by decide)

/-- Every primitive operation a composite Clause 45 write issues carries
the phy address it was handed, whatever the bus answers. -/
theorem smi_write_mmd_ops_addr {E : Type} (bus : Bus E) (p : Nat) (reg : C45)
    (v : Nat) (tr : List SmiOp)
    (h : tr.all (fun op => op.addr == p) = true) :
    ((smi_write_mmd bus tr p reg v).1).all (fun op => op.addr == p) = true := by
  have hp : ∀ x ∈ tr, x.addr = p := by simpa using h
  rcases m1 : bus.writeResp p C22.MMD_CONTROL
      (Reg13Op.Addr ||| (reg.devad.val &&& DEV_MASK)) tr with e | u
  · simp [smi_write_mmd, smi_write, m1, SmiOp.addr]
    exact hp
  · rcases m2 : bus.writeResp p C22.MMD_DATA reg.regnum
        (tr ++ [SmiOp.write p C22.MMD_CONTROL
          (Reg13Op.Addr ||| (reg.devad.val &&& DEV_MASK))]) with e | u
    · simp [smi_write_mmd, smi_write, m1, m2, SmiOp.addr]
      exact hp
    · rcases m3 : bus.writeResp p C22.MMD_CONTROL
          (Reg13Op.Write ||| (reg.devad.val &&& DEV_MASK))
          (tr ++ [SmiOp.write p C22.MMD_CONTROL
              (Reg13Op.Addr ||| (reg.devad.val &&& DEV_MASK)),
            SmiOp.write p C22.MMD_DATA reg.regnum]) with e | u
      · simp [smi_write_mmd, smi_write, m1, m2, m3, SmiOp.addr]
        exact hp
      · simp [smi_write_mmd, smi_write, m1, m2, m3, SmiOp.addr]
        exact hp

/-- Every primitive operation `phy_init` issues carries the driver's
stored phy address, whatever the bus answers. -/
theorem phy_init_ops_addr {E : Type} (bus : Bus E) (phy : GenericPhy)
    (tr : List SmiOp)
    (h : tr.all (fun op => op.addr == phy.phy_addr) = true) :
    ((phy_init bus phy tr).2.1).all (fun op => op.addr == phy.phy_addr) = true := by
  have hmmd := smi_write_mmd_ops_addr bus phy.phy_addr
    (C45.new Mmd.PCS PHY_REG_WUCSR) 0 tr h
  have hmmd' : ∀ x ∈ (smi_write_mmd bus tr phy.phy_addr
      (C45.new Mmd.PCS PHY_REG_WUCSR) 0).1, x.addr = phy.phy_addr := by
    simpa using hmmd
  rcases hm : (smi_write_mmd bus tr phy.phy_addr (C45.new Mmd.PCS PHY_REG_WUCSR) 0).2
    with e | u
  · simpa [phy_init, hm] using hmmd
  · simp only [phy_init, hm]
    simp [smi_write, SmiOp.addr]
    exact hmmd'

/-- Every primitive operation `poll_link` issues carries the driver's
stored phy address, whatever the bus answers. -/
theorem poll_link_ops_addr {E : Type} (bus : Bus E) (phy : GenericPhy)
    (tr : List SmiOp)
    (h : tr.all (fun op => op.addr == phy.phy_addr) = true) :
    ((poll_link bus phy tr).2.1).all (fun op => op.addr == phy.phy_addr) = true := by
  have hp : ∀ x ∈ tr, x.addr = phy.phy_addr := by simpa using h
  rcases h1 : bus.readResp phy.phy_addr C22.BMSR tr with e | bmsr
  · simp [poll_link, smi_read, h1, SmiOp.addr]
    exact hp
  · by_cases hA : bmsr &&& PHY_REG_BSR_ANDONE = 0
    · simp [poll_link, smi_read, h1, hA, SmiOp.addr]
      exact hp
    · by_cases hU : bmsr &&& PHY_REG_BSR_UP = 0
      · simp [poll_link, smi_read, h1, hA, hU, SmiOp.addr]
        exact hp
      · rcases h2 : bus.readResp phy.phy_addr C22.ADVERTISE
            (tr ++ [SmiOp.read phy.phy_addr C22.BMSR]) with e | adv
        · simp [poll_link, smi_read, h1, hA, hU, h2, SmiOp.addr]
          exact hp
        · rcases h3 : bus.readResp phy.phy_addr C22.LPA
              (tr ++ [SmiOp.read phy.phy_addr C22.BMSR,
                SmiOp.read phy.phy_addr C22.ADVERTISE]) with e | lpa
          · simp [poll_link, smi_read, h1, hA, hU, h2, h3, SmiOp.addr]
            exact hp
          · simp [poll_link, smi_read, h1, hA, hU, h2, h3, SmiOp.addr]
            exact hp

/-- C10: for a `GenericPhy` built with `new_auto`, calling `phy_init` or
`poll_link` before a discovery-mode `phy_reset` has resolved the address
makes every primitive bus operation they issue carry phy address 0xFF —
the in-band sentinel, which lies outside the 0-31 range of the primitive
interface — because neither operation checks the stored address before
using it. -/
theorem auto_phy_ops_carry_sentinel :
    (∀ (E : Type) (bus : Bus E),
      ((phy_init bus GenericPhy.new_auto []).2.1).all
        (fun op => op.addr == 0xFF) = true) ∧
    (∀ (E : Type) (bus : Bus E),
      ((poll_link bus GenericPhy.new_auto []).2.1).all
        (fun op => op.addr == 0xFF) = true) ∧
    32 ≤ GenericPhy.new_auto.phy_addr := by
  refine ⟨?_, ?_, by decide⟩
  · intro E bus
    exact phy_init_ops_addr bus GenericPhy.new_auto [] rfl
  · intro E bus
    exact poll_link_ops_addr bus GenericPhy.new_auto [] rfl
